import Mathlib

/-!
Shallow embedding of the vote-casting and result-serving core of the online
poll system (Django project `online_poll_system`, app `polls`): the data model
of `polls/models.py`, the validation and creation logic of
`polls/serializers.py`, and the request handlers of `polls/views.py` with the
routes of `polls/urls.py`.

Conventions: database ids and user ids are `Nat`; wall-clock instants are
`Nat` ticks (seconds); the database tables are Lean lists; the Django cache
is an association list from string keys to value-plus-expiry entries.
-/

namespace PollSystem

/-- Poll row (`polls/models.py`, class `Poll`): title, optional description,
creation and optional expiry timestamps, owner, and the manual active flag
(default `True`). -/
structure Poll where
  id : Nat
  title : String
  description : Option String
  createdAt : Nat
  expiresAt : Option Nat
  createdBy : Nat
  isActive : Bool
  deriving Repr, DecidableEq

/-- Option row (`polls/models.py`, class `Option`): owning poll reference and
text. Named `PollOption` here because `Option` is taken by Lean. -/
structure PollOption where
  id : Nat
  pollId : Nat
  text : String
  deriving Repr, DecidableEq

/-- Vote row (`polls/models.py`, class `Vote`): poll, option and user
references plus timestamp. The table carries
`unique_together = ['user', 'poll']`. -/
structure Vote where
  pollId : Nat
  optionId : Nat
  userId : Nat
  votedAt : Nat
  deriving Repr, DecidableEq

/-- The relational store backing the three models, with the auto-increment
sequences used when new poll and option rows are created. -/
structure Store where
  polls : List Poll
  options : List PollOption
  votes : List Vote
  nextPollId : Nat
  nextOptionId : Nat
  deriving Repr, DecidableEq

/-- `Poll.is_expired` (models.py lines 39-43): `timezone.now() > self.expires_at`
when an expiry is set, otherwise `False`. -/
def is_expired (p : Poll) (now : Nat) : Bool :=
  match p.expiresAt with
  | some e => now > e
  | none => false

/-- `Poll.total_votes` (models.py lines 45-47):
`Vote.objects.filter(poll=self).count()`. -/
def total_votes (s : Store) (p : Poll) : Nat :=
  (s.votes.filter (fun v => v.pollId == p.id)).length

/-- `Option.vote_count` (models.py lines 71-76): `self.votes.count()`, a live
count of the vote rows referencing this option. -/
def vote_count (s : Store) (o : PollOption) : Nat :=
  (s.votes.filter (fun v => v.optionId == o.id)).length

/-- Insertion step for ordering option rows by ascending id. -/
def insertByID (o : PollOption) : List PollOption → List PollOption
  | [] => [o]
  | x :: xs => if o.id ≤ x.id then o :: x :: xs else x :: insertByID o xs

/-- Ordering of option rows by ascending id, as the database does under
`Option.Meta.ordering = ['id']` (models.py lines 62-63). -/
def orderByID : List PollOption → List PollOption
  | [] => []
  | x :: xs => insertByID x (orderByID xs)

/-- `poll.options.all()`: the option rows of a poll, returned in the model's
default ordering by id; ids come from an auto-increment sequence, so id order
is creation order. -/
def poll_options (s : Store) (p : Poll) : List PollOption :=
  orderByID (s.options.filter (fun o => o.pollId == p.id))

/-- Error outcomes of the embedded operations: `validation` is a DRF
`serializers.ValidationError` (surfaced as HTTP 400) carrying its message;
`integrity` is a database `IntegrityError` from a violated unique constraint,
which no code in the app catches. -/
inductive ApiError where
  | validation (msg : String)
  | integrity
  deriving Repr, DecidableEq

/-- The results payload built by `PollResultView.get` (views.py lines 238-247):
`{"poll": title, "total_votes": n, "results": [{"option": text, "votes": n}]}`.
Each `results` element is the pair (option text, vote count). -/
structure ResultsData where
  poll : String
  total_votes : Nat
  results : List (String × Nat)
  deriving Repr, DecidableEq

/-- Bodies of the HTTP responses the embedded handlers can produce. -/
inductive RespBody where
  | results (d : ResultsData)
  | voteRecord (v : Vote)
  | validationErrors (msgs : List String)
  | errorObj (error : String) (detail : Option String)
  | serverError
  deriving Repr, DecidableEq

/-- An HTTP response: status code and JSON body. -/
structure HttpResponse where
  status : Nat
  body : RespBody
  deriving Repr, DecidableEq

/-- One cache entry: the stored snapshot and its absolute expiry instant. -/
structure CacheEntry where
  value : ResultsData
  expireAt : Nat
  deriving Repr, DecidableEq

/-- The Django cache (`django.core.cache.cache`) restricted to the
poll-results key space: an association list from keys to entries. -/
abbrev Cache := List (String × CacheEntry)

/-- `cache.get(key)`: the stored value when the entry exists and its expiry
is still in the future, otherwise a miss. -/
def cache_get (c : Cache) (key : String) (now : Nat) : Option ResultsData :=
  match c.find? (fun e => e.fst == key) with
  | some e => if now < e.snd.expireAt then some e.snd.value else none
  | none => none

/-- `cache.set(key, value, ttl)`: stores the value with expiry `now + ttl`,
replacing any previous entry under the key. -/
def cache_set (c : Cache) (key : String) (value : ResultsData) (ttl now : Nat) : Cache :=
  (key, ⟨value, now + ttl⟩) :: c.filter (fun e => e.fst != key)

/-- `cache.delete(key)`: removes the entry unconditionally, a no-op on an
absent key. -/
def cache_delete (c : Cache) (key : String) : Cache :=
  c.filter (fun e => e.fst != key)

/-- Whole-system state seen by the handlers: the database plus the cache. -/
structure SysState where
  store : Store
  cache : Cache
  deriving Repr, DecidableEq

/-- `Vote.objects.filter(user=user, poll=poll).exists()` (serializers.py
line 183): the separate application-level existence check. -/
def vote_exists (s : Store) (userId pollId : Nat) : Bool :=
  s.votes.any (fun v => v.userId == userId && v.pollId == pollId)

/-- `Poll` primary-key lookup, as DRF's `PrimaryKeyRelatedField` and
`Poll.objects.get(id=...)` perform it. -/
def find_poll (s : Store) (pollId : Nat) : Option Poll :=
  s.polls.find? (fun p => p.id == pollId)

/-- `Option` primary-key lookup performed by DRF when deserializing the vote
body. -/
def find_option (s : Store) (optionId : Nat) : Option PollOption :=
  s.options.find? (fun o => o.id == optionId)

/-- `Vote.objects.create(user=user, poll=..., option=...)` hitting the
database (serializers.py line 201): the row insert checks the
`unique_together = ['user', 'poll']` constraint (models.py lines 101-103)
indivisibly with the insert and raises `IntegrityError` when a row for the
same (user, poll) pair already exists. -/
def Vote_objects_create (s : Store) (userId pollId optionId now : Nat) :
    Except ApiError Store :=
  if vote_exists s userId pollId then
    .error .integrity
  else
    .ok { s with votes := s.votes ++ [⟨pollId, optionId, userId, now⟩] }

/-- `VoteSerializer.validate` (serializers.py lines 162-194), preceded by the
primary-key resolution of the body's `poll` and `option` fields (a failed
lookup is a DRF field `ValidationError`, also HTTP 400). The four checks run
in source order: poll active, poll not expired, user has not voted yet
(the separate `exists()` read), option belongs to the poll. -/
def VoteSerializer_validate (s : Store) (now userId pollId optionId : Nat) :
    Except ApiError (Poll × PollOption) :=
  match find_poll s pollId with
  | none => .error (.validation "Invalid poll pk.")
  | some poll =>
    match find_option s optionId with
    | none => .error (.validation "Invalid option pk.")
    | some opt =>
      if !poll.isActive then
        .error (.validation "This poll is no longer active.")
      else if is_expired poll now then
        .error (.validation "This poll has expired.")
      else if vote_exists s userId pollId then
        .error (.validation "You have already voted in this poll.")
      else if opt.pollId != poll.id then
        .error (.validation "Selected option does not belong to this poll.")
      else
        .ok (poll, opt)

/-- Key of the cached results of a poll, `f'poll_results_{poll_id}'`
(views.py lines 197 and 223). -/
def results_cache_key (pollId : Nat) : String :=
  "poll_results_" ++ toString pollId

/-- `VoteCreateView.post` (views.py lines 169-199) on route
`polls/<int:poll_id>/vote/` (urls.py lines 41-45). The `poll_id` captured
from the URL is received as a keyword argument but never read: poll and
option come from the request body. On a 201 the handler deletes the results
cache key derived from the body's `poll` value before returning the
response; a validation failure is a 400 and an uncaught `IntegrityError`
would surface as a 500 server fault. -/
def VoteCreateView_post (st : SysState) (now urlPollId bodyPoll bodyOption userId : Nat) :
    SysState × HttpResponse :=
  match VoteSerializer_validate st.store now userId bodyPoll bodyOption with
  | .error (.validation msg) => (st, ⟨400, .validationErrors [msg]⟩)
  | .error .integrity => (st, ⟨500, .serverError⟩)
  | .ok _ =>
    match Vote_objects_create st.store userId bodyPoll bodyOption now with
    | .error _ => (st, ⟨500, .serverError⟩)
    | .ok s2 =>
      ({ store := s2, cache := cache_delete st.cache (results_cache_key bodyPoll) },
       ⟨201, .voteRecord ⟨bodyPoll, bodyOption, userId, now⟩⟩)

/-- The payload `PollResultView.get` computes from the store on a cache miss
(views.py lines 237-247): poll title, live total, and one (text, votes) pair
per option in the model's id ordering. -/
def aggregate_results (s : Store) (p : Poll) : ResultsData :=
  { poll := p.title
    total_votes := total_votes s p
    results := (poll_options s p).map (fun o => (o.text, vote_count s o)) }

/-- `PollResultView.get` (views.py lines 220-251): try the cache under
`poll_results_{poll_id}` first (the cached dict is non-empty, hence truthy);
on a miss load the poll (404 `{"error": "Poll not found."}` when absent),
recompute the payload from the store, cache it for 60 seconds and return it.
The third component records whether the store was queried. -/
def PollResultView_get (st : SysState) (now pollId : Nat) :
    SysState × HttpResponse × Bool :=
  let key := results_cache_key pollId
  match cache_get st.cache key now with
  | some d => (st, ⟨200, .results d⟩, false)
  | none =>
    match find_poll st.store pollId with
    | none => (st, ⟨404, .errorObj "Poll not found." none⟩, true)
    | some poll =>
      let data := aggregate_results st.store poll
      ({ st with cache := cache_set st.cache key data 60 now },
       ⟨200, .results data⟩, true)

/-- Option-list validation for poll creation: the `ListField` declares
`min_length=2` and `validate_options` (serializers.py lines 102-115) re-checks
the length and rejects duplicates via `len(value) != len(set(value))`,
modelled with `dedup`. Either failure is a DRF `ValidationError`. -/
def validate_options (opts : List String) : Except ApiError (List String) :=
  if opts.length < 2 then
    .error (.validation "A poll must have at least 2 options.")
  else if opts.dedup.length ≠ opts.length then
    .error (.validation "Options must be unique.")
  else
    .ok opts

/-- `validate_expires_at` (serializers.py lines 117-123): a supplied expiry
that is not strictly in the future (`value <= timezone.now()`) is rejected;
a null expiry passes. -/
def validate_expires_at (expiry : Option Nat) (now : Nat) : Except ApiError (Option Nat) :=
  match expiry with
  | some e => if e ≤ now then .error (.validation "Expiry date must be in the future.") else .ok expiry
  | none => .ok expiry

/-- The option rows `PollCreateSerializer.create` inserts, one per supplied
text in order, with consecutive auto-increment ids. -/
def createOptionRows (pollId : Nat) (firstId : Nat) : List String → List PollOption
  | [] => []
  | t :: ts => ⟨firstId, pollId, t⟩ :: createOptionRows pollId (firstId + 1) ts

/-- `PollCreateSerializer.create` (serializers.py lines 125-143): create the
poll owned by the requesting user (`is_active` defaults to `True`), then one
`Option` row per text in the supplied order. -/
def PollCreateSerializer_create (s : Store) (title : String) (description : Option String)
    (expiry : Option Nat) (ownerId now : Nat) (optionTexts : List String) : Store × Poll :=
  let poll : Poll := ⟨s.nextPollId, title, description, now, expiry, ownerId, true⟩
  let newOpts := createOptionRows poll.id s.nextOptionId optionTexts
  ({ s with
      polls := s.polls ++ [poll]
      options := s.options ++ newOpts
      nextPollId := s.nextPollId + 1
      nextOptionId := s.nextOptionId + optionTexts.length },
   poll)

/-- POST `/api/polls/` handling by `PollCreateSerializer`: DRF runs the field
validators (`validate_expires_at`, then the options field) and calls `create`
only when every check passed; on failure nothing is written. -/
def createPoll (s : Store) (title : String) (description : Option String)
    (expiry : Option Nat) (ownerId now : Nat) (optionTexts : List String) :
    Store × Except ApiError Poll :=
  match validate_expires_at expiry now with
  | .error e => (s, .error e)
  | .ok _ =>
    match validate_options optionTexts with
    | .error e => (s, .error e)
    | .ok _ =>
      let res := PollCreateSerializer_create s title description expiry ownerId now optionTexts
      (res.fst, .ok res.snd)

/-- Modelled from the spec: the fixed-window request counter of the external
`django_ratelimit` library, whose counting code is not part of this
repository (views.py only attaches the decorators naming key and rate).
Spec section 4.5: a rolling count per (identity, operation) against a fixed
budget per window; the k-th request of a window is allowed iff k does not
exceed the budget. -/
def ratelimit_allows (budget k : Nat) : Bool :=
  k ≤ budget

/-- `rate_limited_error` (views.py lines 258-268), installed as
`RATELIMIT_VIEW` in settings.py: the one handler used for every rate-limited
operation, returning 429 with a fixed body. -/
def rate_limited_error : HttpResponse :=
  ⟨429, .errorObj "Rate limit exceeded" (some "Too many requests. Please try again later.")⟩

/-- `ratelimit(key='user', rate='20/h', method='POST')` on
`VoteCreateView.post` (views.py line 191). -/
def vote_rate_budget : Nat := 20

/-- `ratelimit(key='ip', rate='100/h', method='GET')` on
`PollResultView.get` (views.py line 220). -/
def results_rate_budget : Nat := 100

/-- Dispatch of the k-th request (1-indexed) of one identity within one
window for an operation with the given budget: allowed requests reach the
operation handler, blocked ones get `rate_limited_error`. -/
def guarded_dispatch (budget k : Nat) (handler : HttpResponse) : HttpResponse :=
  if ratelimit_allows budget k then handler else rate_limited_error

/-- Outcome of one concurrent vote attempt for a fixed (user, poll) pair:
committed (201), the serializer's already-voted `ValidationError` (400), or
an `IntegrityError` from the `unique_together` constraint that nothing
catches (500). -/
inductive VoteOutcome where
  | committed
  | alreadyVoted
  | integrityFault
  deriving Repr, DecidableEq

/-- Phase of one vote-request worker: before its existence check, after the
check (recording what it saw), or finished with an outcome. -/
inductive WorkerPhase where
  | start
  | checked (found : Bool)
  | fin (r : VoteOutcome)
  deriving Repr, DecidableEq

/-- Interleaving state of two concurrent vote attempts by the same voter on
the same (active, unexpired) poll: the number of committed vote rows for the
(user, poll) pair and the phase of each worker. -/
structure RaceState where
  rows : Nat
  w1 : WorkerPhase
  w2 : WorkerPhase
  deriving Repr, DecidableEq

/-- One atomic step of a vote-request worker, as the code sequences it:
first the separate `Vote.objects.filter(...).exists()` read inside
`VoteSerializer.validate`; if that saw a row the attempt ends with the
already-voted 400; otherwise `Vote.objects.create` runs, and the
`unique_together` database constraint decides indivisibly — commit when no
row exists yet, `IntegrityError` when a concurrent attempt inserted one in
between. -/
def workerStep (rows : Nat) : WorkerPhase → Nat × WorkerPhase
  | .start => (rows, .checked (rows != 0))
  | .checked true => (rows, .fin .alreadyVoted)
  | .checked false =>
      if rows = 0 then (rows + 1, .fin .committed)
      else (rows, .fin .integrityFault)
  | .fin r => (rows, .fin r)

/-- Run one step of the chosen worker (`true` picks worker 1). -/
def raceStep (c : RaceState) (which : Bool) : RaceState :=
  if which then
    let s := workerStep c.rows c.w1
    { c with rows := s.fst, w1 := s.snd }
  else
    let s := workerStep c.rows c.w2
    { c with rows := s.fst, w2 := s.snd }

/-- Run a whole schedule, one chosen worker step at a time. -/
def raceRun (c : RaceState) : List Bool → RaceState
  | [] => c
  | b :: bs => raceRun (raceStep c b) bs

/-- Initial race state: no committed row, both attempts about to start. -/
def raceInit : RaceState := ⟨0, .start, .start⟩

/-- Number of workers that finished with a commit. -/
def committedCount (c : RaceState) : Nat :=
  (if c.w1 = .fin .committed then 1 else 0) + (if c.w2 = .fin .committed then 1 else 0)

/-- A worker phase that can only be reached when a committed row already
exists: a check that saw a row, or an attempt that ended as already-voted or
as a constraint violation. -/
def needsRow : WorkerPhase → Prop
  | .checked found => found = true
  | .fin .alreadyVoted => True
  | .fin .integrityFault => True
  | _ => False

/-- Invariant of the race transition system: the committed row count matches
the number of workers that finished with a commit, never exceeds one, and any
worker in a phase that presupposes an existing row indeed has one. -/
def raceInv (c : RaceState) : Prop :=
  c.rows = committedCount c ∧ c.rows ≤ 1 ∧
    (needsRow c.w1 → 1 ≤ c.rows) ∧ (needsRow c.w2 → 1 ≤ c.rows)

/-- Referential well-formedness the vote path maintains: option ids are
unique (primary keys) and every vote row references an existing option row of
the vote's own poll (the serializer's membership check). -/
def wellFormed (s : Store) : Prop :=
  (s.options.map PollOption.id).Nodup ∧
  ∀ v ∈ s.votes, ∃ o ∈ s.options, o.id = v.optionId ∧ o.pollId = v.pollId

deriving instance DecidableEq for Except

/-- Demo poll 1: active, no expiry. -/
def demoPoll : Poll := ⟨1, "Color", none, 0, none, 9, true⟩

/-- Demo poll 7: a second, unrelated poll. -/
def demoPoll7 : Poll := ⟨7, "Season", none, 0, none, 9, true⟩

/-- Demo poll 2: manually deactivated. -/
def demoInactivePoll : Poll := ⟨2, "Closed", none, 0, none, 9, false⟩

/-- Demo poll 3: active flag still set but expired at tick 10. -/
def demoExpiredPoll : Poll := ⟨3, "Old", none, 0, some 10, 9, true⟩

/-- Demo store: polls 1 and 7 (votable), 2 (inactive) and 3 (expired after
tick 10), each with its options; no votes yet. -/
def demoStore : Store :=
  { polls := [demoPoll, demoPoll7, demoInactivePoll, demoExpiredPoll]
    options := [⟨1, 1, "Red"⟩, ⟨2, 1, "Blue"⟩, ⟨3, 7, "Summer"⟩, ⟨4, 7, "Winter"⟩,
                ⟨5, 2, "Yes"⟩, ⟨6, 3, "No"⟩]
    votes := []
    nextPollId := 8
    nextOptionId := 7 }

/-- Demo system state with an empty cache. -/
def demoState : SysState := ⟨demoStore, []⟩

/-- Demo store in which user 5 has already voted for option 1 of poll 1. -/
def demoVotedStore : Store :=
  { demoStore with votes := [⟨1, 1, 5, 0⟩] }

/-- Demo system state for the already-voted scenarios. -/
def demoVotedState : SysState := ⟨demoVotedStore, []⟩

/-- Demo snapshot cached for poll 1. -/
def demoSnapshot : ResultsData := ⟨"Color", 1, [("Red", 1), ("Blue", 0)]⟩

/-- Demo system state whose cache holds a still-fresh snapshot for poll 1
(stored at tick 0 with the view's 60-second TTL). -/
def demoCachedState : SysState :=
  ⟨demoVotedStore, [(results_cache_key 1, ⟨demoSnapshot, 60⟩)]⟩

/-! Shared lemmas about the cache and the vote path. -/

/-- Deleting a key removes it for good: a lookup of that key after
`cache_delete` always misses, whatever the clock says. -/
theorem cache_get_delete (c : Cache) (k : String) (t : Nat) :
    cache_get (cache_delete c k) k t = none := by
  have hfind : (cache_delete c k).find? (fun e => e.fst == k) = none := by
    induction c with
    | nil => rfl
    | cons e c ih =>
      by_cases h : e.fst = k
      · simpa [cache_delete, List.filter_cons, h] using ih
      · simpa [cache_delete, List.filter_cons, List.find?_cons, bne, h, beq_iff_eq] using ih
  simp [cache_get, hfind]

/-- Everything `VoteSerializer.validate` established when it returned
successfully: the body's poll and option resolved, the poll is active and
unexpired, the user had no committed vote at check time, and the option
belongs to the poll. -/
theorem validate_ok_facts {s : Store} {now userId pollId optionId : Nat} {poll : Poll}
    {opt : PollOption}
    (h : VoteSerializer_validate s now userId pollId optionId = .ok (poll, opt)) :
    find_poll s pollId = some poll ∧ find_option s optionId = some opt ∧
      poll.isActive = true ∧ is_expired poll now = false ∧
      vote_exists s userId pollId = false ∧ opt.pollId = poll.id ∧
      poll.id = pollId ∧ opt.id = optionId := by
  unfold VoteSerializer_validate at h
  cases hp : find_poll s pollId with
  | none => rw [hp] at h; exact absurd h (by simp)
  | some p₀ =>
    rw [hp] at h
    cases ho : find_option s optionId with
    | none => rw [ho] at h; exact absurd h (by simp)
    | some o₀ =>
      rw [ho] at h
      by_cases hact : p₀.isActive = true
      · by_cases hexp : is_expired p₀ now = true
        · simp [hact, hexp] at h
        · by_cases hvex : vote_exists s userId pollId = true
          · simp [hact, hexp, hvex] at h
          · by_cases hmem : o₀.pollId = p₀.id
            · simp [hact, hexp, hvex, hmem] at h
              obtain ⟨h1, h2⟩ := h
              have hid : p₀.id = pollId := by
                simpa [beq_iff_eq] using List.find?_some hp
              have hoid : o₀.id = optionId := by
                simpa [beq_iff_eq] using List.find?_some ho
              refine ⟨?_, ?_, ?_, ?_, ?_, ?_, ?_, ?_⟩ <;> simp_all
            · simp [hact, hexp, hvex, bne, hmem] at h
      · simp [hact] at h

/-- A validation failure makes the vote handler answer 400 with that single
message and leave the whole system state untouched. -/
theorem post_of_validate_error (u : Nat) {st : SysState} {now bp bo uid : Nat} {msg : String}
    (h : VoteSerializer_validate st.store now uid bp bo = .error (.validation msg)) :
    VoteCreateView_post st now u bp bo uid = (st, ⟨400, .validationErrors [msg]⟩) := by
  simp [VoteCreateView_post, h]

/-- The 201 path of the vote handler, fully characterised: validation
succeeded, the new row was appended to the vote table, and the cache entry
under the body-derived key was deleted before the response was produced. -/
theorem post_201_spec (st : SysState) (now u bp bo uid : Nat)
    (h201 : (VoteCreateView_post st now u bp bo uid).2.status = 201) :
    ∃ poll opt, VoteSerializer_validate st.store now uid bp bo = .ok (poll, opt) ∧
      VoteCreateView_post st now u bp bo uid =
        ({ store := { st.store with votes := st.store.votes ++ [⟨bp, bo, uid, now⟩] },
           cache := cache_delete st.cache (results_cache_key bp) },
         ⟨201, .voteRecord ⟨bp, bo, uid, now⟩⟩) := by
  cases hv : VoteSerializer_validate st.store now uid bp bo with
  | error e =>
    cases e with
    | validation msg => simp [VoteCreateView_post, hv] at h201
    | integrity => simp [VoteCreateView_post, hv] at h201
  | ok po =>
    obtain ⟨poll, opt⟩ := po
    have hvex : vote_exists st.store uid bp = false := (validate_ok_facts hv).2.2.2.2.1
    refine ⟨poll, opt, rfl, ?_⟩
    simp [VoteCreateView_post, hv, Vote_objects_create, hvex]

/-- Validation outcome when the poll is inactive. -/
theorem validate_inactive (now uid : Nat) {s : Store} {bp bo : Nat} {poll : Poll}
    {opt : PollOption}
    (hp : find_poll s bp = some poll) (ho : find_option s bo = some opt)
    (hact : poll.isActive = false) :
    VoteSerializer_validate s now uid bp bo =
      .error (.validation "This poll is no longer active.") := by
  simp [VoteSerializer_validate, hp, ho, hact]

/-- Validation outcome when the poll is active but expired. -/
theorem validate_expired (uid : Nat) {s : Store} {now bp bo : Nat} {poll : Poll}
    {opt : PollOption}
    (hp : find_poll s bp = some poll) (ho : find_option s bo = some opt)
    (hact : poll.isActive = true) (hexp : is_expired poll now = true) :
    VoteSerializer_validate s now uid bp bo =
      .error (.validation "This poll has expired.") := by
  simp [VoteSerializer_validate, hp, ho, hact, hexp]

/-- Validation outcome when the user already holds a committed vote row. -/
theorem validate_already_voted {s : Store} {now uid bp bo : Nat} {poll : Poll} {opt : PollOption}
    (hp : find_poll s bp = some poll) (ho : find_option s bo = some opt)
    (hact : poll.isActive = true) (hexp : is_expired poll now = false)
    (hvoted : vote_exists s uid bp = true) :
    VoteSerializer_validate s now uid bp bo =
      .error (.validation "You have already voted in this poll.") := by
  simp [VoteSerializer_validate, hp, ho, hact, hexp, hvoted]

/-- Validation outcome when the chosen option belongs to a different poll. -/
theorem validate_not_member {s : Store} {now uid bp bo : Nat} {poll : Poll} {opt : PollOption}
    (hp : find_poll s bp = some poll) (ho : find_option s bo = some opt)
    (hact : poll.isActive = true) (hexp : is_expired poll now = false)
    (hvoted : vote_exists s uid bp = false) (hmem : opt.pollId ≠ poll.id) :
    VoteSerializer_validate s now uid bp bo =
      .error (.validation "Selected option does not belong to this poll.") := by
  simp [VoteSerializer_validate, hp, ho, hact, hexp, hvoted, bne, hmem]

/-! Lemmas for the two-worker interleaving model of concurrent duplicate
votes. -/

/-- The initial race state satisfies the invariant. -/
theorem raceInv_init : raceInv raceInit := by
  refine ⟨rfl, by simp [raceInit], ?_, ?_⟩ <;> simp [raceInit, needsRow]

/-- Stepping the race with `false` steps worker 2. -/
theorem raceStep_false (rows : Nat) (w1 w2 : WorkerPhase) :
    raceStep ⟨rows, w1, w2⟩ false =
      ⟨(workerStep rows w2).fst, w1, (workerStep rows w2).snd⟩ := rfl

/-- Stepping the race with `true` steps worker 1. -/
theorem raceStep_true (rows : Nat) (w1 w2 : WorkerPhase) :
    raceStep ⟨rows, w1, w2⟩ true =
      ⟨(workerStep rows w1).fst, (workerStep rows w1).snd, w2⟩ := rfl

/-- The constrained insert commits when no row exists yet. -/
theorem workerStep_insert_ok (rows : Nat) (hr : rows = 0) :
    workerStep rows (.checked false) = (rows + 1, .fin .committed) := by
  simp [workerStep, hr]

/-- The constrained insert raises `IntegrityError` when a row exists. -/
theorem workerStep_insert_conflict (rows : Nat) (hr : rows ≠ 0) :
    workerStep rows (.checked false) = (rows, .fin .integrityFault) := by
  simp [workerStep, hr]

/-- One scheduled worker step preserves the race invariant. -/
theorem raceInv_step (c : RaceState) (b : Bool) (h : raceInv c) : raceInv (raceStep c b) := by
  obtain ⟨rows, w1, w2⟩ := c
  obtain ⟨h1, h2, h3, h4⟩ := h
  simp only [committedCount] at h1
  cases b
  · -- worker 2 takes its step
    cases w2 with
    | start =>
      rw [raceStep_false]
      simp only [workerStep]
      refine ⟨?_, h2, h3, ?_⟩
      · simpa [committedCount] using h1
      · simp only [needsRow, bne_iff_ne]
        intro hne
        omega
    | checked found =>
      cases found
      · by_cases hr : rows = 0
        · rw [raceStep_false, workerStep_insert_ok rows hr]
          simp at h1
          refine ⟨?_, ?_, ?_, ?_⟩
          · simp [committedCount]
            omega
          · simp
            omega
          · intro _
            simp
          · simp [needsRow]
        · rw [raceStep_false, workerStep_insert_conflict rows hr]
          simp at h1
          refine ⟨?_, h2, h3, ?_⟩
          · simp [committedCount]
            omega
          · intro _
            simp
            omega
      · rw [raceStep_false]
        simp only [workerStep]
        have hrow : 1 ≤ rows := h4 rfl
        simp at h1
        refine ⟨?_, h2, h3, ?_⟩
        · simp [committedCount]
          omega
        · intro _
          simp
          omega
    | fin r =>
      rw [raceStep_false]
      simp only [workerStep]
      exact ⟨by simpa [committedCount] using h1, h2, h3, h4⟩
  · -- worker 1 takes its step
    cases w1 with
    | start =>
      rw [raceStep_true]
      simp only [workerStep]
      refine ⟨?_, h2, ?_, h4⟩
      · simpa [committedCount] using h1
      · simp only [needsRow, bne_iff_ne]
        intro hne
        omega
    | checked found =>
      cases found
      · by_cases hr : rows = 0
        · rw [raceStep_true, workerStep_insert_ok rows hr]
          simp at h1
          refine ⟨?_, ?_, ?_, ?_⟩
          · simp [committedCount]
            omega
          · simp
            omega
          · simp [needsRow]
          · intro _
            simp
        · rw [raceStep_true, workerStep_insert_conflict rows hr]
          simp at h1
          refine ⟨?_, h2, ?_, h4⟩
          · simp [committedCount]
            omega
          · intro _
            simp
            omega
      · rw [raceStep_true]
        simp only [workerStep]
        have hrow : 1 ≤ rows := h3 rfl
        simp at h1
        refine ⟨?_, h2, ?_, h4⟩
        · simp [committedCount]
          omega
        · intro _
          simp
          omega
    | fin r =>
      rw [raceStep_true]
      simp only [workerStep]
      exact ⟨by simpa [committedCount] using h1, h2, h3, h4⟩

/-- A whole schedule preserves the race invariant. -/
theorem raceInv_run (sched : List Bool) (c : RaceState) (h : raceInv c) :
    raceInv (raceRun c sched) := by
  induction sched generalizing c with
  | nil => exact h
  | cons b bs ih => exact ih _ (raceInv_step c b h)

/-! Counting lemmas behind the derived-count invariant. -/

/-- Prepending one vote adds to the per-option sum exactly the number of
option rows whose id the vote references. -/
theorem sum_counts_cons (opts : List PollOption) (v : Vote) (vs : List Vote) :
    (opts.map (fun o => ((v :: vs).filter (fun w => w.optionId == o.id)).length)).sum =
      opts.countP (fun o => o.id == v.optionId) +
        (opts.map (fun o => (vs.filter (fun w => w.optionId == o.id)).length)).sum := by
  induction opts with
  | nil => simp
  | cons o os ih =>
    rw [List.map_cons, List.sum_cons, ih, List.countP_cons, List.filter_cons]
    by_cases h : v.optionId = o.id
    · simp [h]
      omega
    · have h' : ¬o.id = v.optionId := fun he => h he.symm
      simp [h, h']
      omega

/-- When every vote hits exactly one option row of the poll (and votes of
other polls hit none), the per-poll vote count equals the per-option sum. -/
theorem total_eq_sum_of_counts (pid : Nat) (vs : List Vote) (opts : List PollOption)
    (h : ∀ v ∈ vs, opts.countP (fun o => o.id == v.optionId) =
      if v.pollId == pid then 1 else 0) :
    (vs.filter (fun v => v.pollId == pid)).length =
      (opts.map (fun o => (vs.filter (fun w => w.optionId == o.id)).length)).sum := by
  induction vs with
  | nil => simp
  | cons v vs ih =>
    rw [sum_counts_cons, h v (List.mem_cons_self v vs), List.filter_cons]
    have ih' := ih (fun w hw => h w (List.mem_cons_of_mem v hw))
    by_cases hv : v.pollId = pid
    · simp [hv, ih']
      omega
    · simp [hv, ih']

/-- In a list of option rows with pairwise distinct ids, the rows whose id
equals that of a member `o₀` and that satisfy `q` number one when `q o₀`
holds and zero otherwise. -/
theorem countP_id_of_nodup (l : List PollOption) (n : Nat) (q : PollOption → Bool)
    (o₀ : PollOption) (hnd : (l.map PollOption.id).Nodup) (hmem : o₀ ∈ l)
    (hid : o₀.id = n) :
    l.countP (fun o => o.id == n && q o) = if q o₀ then 1 else 0 := by
  induction l with
  | nil => cases hmem
  | cons x xs ih =>
    simp only [List.map_cons, List.nodup_cons] at hnd
    obtain ⟨hx, hnd'⟩ := hnd
    rw [List.countP_cons]
    rcases List.mem_cons.mp hmem with h0 | h0
    · subst h0
      have hzero : xs.countP (fun o => o.id == n && q o) = 0 := by
        rw [List.countP_eq_zero]
        intro a ha hcontra
        simp only [Bool.and_eq_true, beq_iff_eq] at hcontra
        refine hx ?_
        rw [hid, ← hcontra.1]
        exact List.mem_map_of_mem PollOption.id ha
      simp [hzero, hid]
    · have hxid : ¬x.id = n := by
        intro heq
        refine hx ?_
        rw [heq, ← hid]
        exact List.mem_map_of_mem PollOption.id h0
      rw [ih hnd' h0]
      simp [hxid]

/-- In a well-formed store, each vote row contributes exactly one hit among
the options of its own poll and none among the options of any other poll. -/
theorem countP_options_of_vote (s : Store) (hwf : wellFormed s) (p : Poll) (v : Vote)
    (hv : v ∈ s.votes) :
    (s.options.filter (fun o => o.pollId == p.id)).countP
        (fun o => o.id == v.optionId) =
      if v.pollId == p.id then 1 else 0 := by
  obtain ⟨hnd, href⟩ := hwf
  obtain ⟨o₀, ho₀mem, ho₀id, ho₀poll⟩ := href v hv
  rw [List.countP_filter,
    countP_id_of_nodup s.options v.optionId (fun o => o.pollId == p.id) o₀ hnd ho₀mem ho₀id,
    ho₀poll]

/-! Lemmas about the id-ordering of option rows. -/

/-- Inserting into the id-ordered list is a permutation of consing. -/
theorem insertByID_perm (o : PollOption) (l : List PollOption) :
    (insertByID o l).Perm (o :: l) := by
  induction l with
  | nil => exact List.Perm.refl _
  | cons x xs ih =>
    by_cases h : o.id ≤ x.id
    · simp [insertByID, h]
    · simp only [insertByID, if_neg h]
      exact (ih.cons x).trans (List.Perm.swap o x xs)

/-- The id-ordering permutes the underlying list. -/
theorem orderByID_perm (l : List PollOption) : (orderByID l).Perm l := by
  induction l with
  | nil => exact List.Perm.refl _
  | cons x xs ih => exact (insertByID_perm x (orderByID xs)).trans (ih.cons x)

/-- Inserting preserves sortedness by id. -/
theorem pairwise_insertByID {o : PollOption} {l : List PollOption}
    (h : l.Pairwise (fun a b => a.id ≤ b.id)) :
    (insertByID o l).Pairwise (fun a b => a.id ≤ b.id) := by
  induction l with
  | nil => simp [insertByID]
  | cons x xs ih =>
    rcases List.pairwise_cons.mp h with ⟨hx, hxs⟩
    by_cases hle : o.id ≤ x.id
    · simp only [insertByID, if_pos hle]
      refine List.pairwise_cons.mpr ⟨?_, h⟩
      intro y hy
      rcases List.mem_cons.mp hy with rfl | hy'
      · exact hle
      · exact le_trans hle (hx y hy')
    · simp only [insertByID, if_neg hle]
      refine List.pairwise_cons.mpr ⟨?_, ih hxs⟩
      intro y hy
      rcases List.mem_cons.mp ((insertByID_perm o xs).mem_iff.mp hy) with rfl | hy'
      · omega
      · exact hx y hy'

/-- The option rows served by the results view are sorted by ascending id. -/
theorem pairwise_orderByID (l : List PollOption) :
    (orderByID l).Pairwise (fun a b => a.id ≤ b.id) := by
  induction l with
  | nil => simp [orderByID]
  | cons x xs ih => exact pairwise_insertByID ih

/-- Derived-count consistency for one well-formed store: the poll-level count
equals the sum of its options' counts. -/
theorem store_total_eq_sum (s : Store) (hwf : wellFormed s) (p : Poll) :
    total_votes s p = ((poll_options s p).map (fun o => vote_count s o)).sum := by
  have hperm : ((poll_options s p).map (fun o => vote_count s o)).Perm
      ((s.options.filter (fun o => o.pollId == p.id)).map (fun o => vote_count s o)) :=
    (orderByID_perm _).map _
  rw [List.Perm.sum_eq hperm]
  unfold total_votes vote_count
  exact total_eq_sum_of_counts p.id s.votes _
    (fun v hv => countP_options_of_vote s hwf p v hv)

/-- The vote handler preserves store well-formedness: on a 201 the appended
row references the validated option of its own poll, on any error the store
is untouched. -/
theorem wellFormed_post (st : SysState) (now u bp bo uid : Nat) (h : wellFormed st.store) :
    wellFormed (VoteCreateView_post st now u bp bo uid).1.store := by
  cases hv : VoteSerializer_validate st.store now uid bp bo with
  | error e =>
    cases e with
    | validation msg => simpa [VoteCreateView_post, hv] using h
    | integrity => simpa [VoteCreateView_post, hv] using h
  | ok po =>
    obtain ⟨poll, opt⟩ := po
    obtain ⟨hp, ho, hact, hexp, hvex, hmem, hid, hoid⟩ := validate_ok_facts hv
    obtain ⟨hnd, href⟩ := h
    have hres : (VoteCreateView_post st now u bp bo uid).1.store =
        { st.store with votes := st.store.votes ++ [⟨bp, bo, uid, now⟩] } := by
      simp [VoteCreateView_post, hv, Vote_objects_create, hvex]
    rw [hres]
    refine ⟨hnd, ?_⟩
    intro v hvmem
    rcases List.mem_append.mp hvmem with h1 | h1
    · exact href v h1
    · have hv1 : v = ⟨bp, bo, uid, now⟩ := by simpa using h1
      subst hv1
      exact ⟨opt, List.mem_of_find?_eq_some ho, hoid, hmem.trans hid⟩

/-! Lemmas for poll creation. -/

/-- Python's `len(set(l)) == len(l)` test detects exactly the duplicate-free
lists. -/
theorem dedup_length_iff (l : List String) : l.dedup.length = l.length ↔ l.Nodup := by
  constructor
  · intro h
    exact List.dedup_eq_self.mp (List.Sublist.eq_of_length (List.dedup_sublist l) h)
  · intro h
    rw [List.dedup_eq_self.mpr h]

/-- Too few or duplicated option texts make the options validator fail with a
`ValidationError`. -/
theorem validate_options_error (texts : List String)
    (h : texts.length < 2 ∨ ¬texts.Nodup) :
    ∃ msg, validate_options texts = .error (.validation msg) := by
  by_cases hl : texts.length < 2
  · exact ⟨"A poll must have at least 2 options.", by simp [validate_options, hl]⟩
  · rcases h with h | h
    · exact absurd h hl
    · have hd : texts.dedup.length ≠ texts.length := by
        intro he
        exact h ((dedup_length_iff texts).mp he)
      exact ⟨"Options must be unique.", by simp [validate_options, hl, hd]⟩

/-- At least two pairwise distinct option texts pass the options validator. -/
theorem validate_options_ok (texts : List String) (h2 : 2 ≤ texts.length)
    (hnd : texts.Nodup) : validate_options texts = .ok texts := by
  simp [validate_options, Nat.not_lt.mpr h2, (dedup_length_iff texts).mpr hnd]

/-- A null expiry passes the expiry validator. -/
theorem validate_expires_at_none (now : Nat) :
    validate_expires_at none now = .ok none := rfl

/-- A supplied expiry that is not strictly in the future is rejected. -/
theorem validate_expires_at_le {e now : Nat} (h : e ≤ now) :
    validate_expires_at (some e) now =
      .error (.validation "Expiry date must be in the future.") := by
  simp [validate_expires_at, h]

/-- A strictly future expiry passes the expiry validator. -/
theorem validate_expires_at_gt {e now : Nat} (h : now < e) :
    validate_expires_at (some e) now = .ok (some e) := by
  simp [validate_expires_at, Nat.not_le.mpr h]

/-- The created option rows carry exactly the supplied texts, in order. -/
theorem createOptionRows_texts (pid fid : Nat) (ts : List String) :
    (createOptionRows pid fid ts).map PollOption.text = ts := by
  induction ts generalizing fid with
  | nil => rfl
  | cons t ts ih => simp [createOptionRows, ih]

/-- Every created option row belongs to the new poll. -/
theorem createOptionRows_pollId (pid fid : Nat) (ts : List String) :
    ∀ o ∈ createOptionRows pid fid ts, o.pollId = pid := by
  induction ts generalizing fid with
  | nil => simp [createOptionRows]
  | cons t ts ih =>
    intro o ho
    rcases List.mem_cons.mp ho with rfl | ho'
    · rfl
    · exact ih (fid + 1) o ho'

/-! The claims. -/

/-- C1, counterexample: in the interleaving where both workers pass the
separate existence check before either inserts, the losing attempt ends with
an uncaught `IntegrityError`, not with the AlreadyVoted validation answer —
yet only one row is committed. -/
theorem C1_counterexample :
    (raceRun raceInit [true, false, true, false]).w2 = .fin .integrityFault ∧
    ¬(raceRun raceInit [true, false, true, false]).w2 = .fin .alreadyVoted ∧
    (raceRun raceInit [true, false, true, false]).rows = 1 := by decide

/-- C1, amended: for every interleaving of two concurrent vote attempts by
the same voter on the same poll, at most one vote row is ever committed (the
`unique_together` constraint, not the application-level check, forbids the
second), the committed rows are exactly the workers that finished with a
commit, and when both attempts finish exactly one of them committed; but the
uniqueness check is the separate `exists()` read followed by an insert, and a
loser that passed the read receives the constraint's `IntegrityError` rather
than AlreadyVoted. -/
theorem C1_unique_commit (sched : List Bool) :
    (raceRun raceInit sched).rows ≤ 1 ∧
    (raceRun raceInit sched).rows = committedCount (raceRun raceInit sched) ∧
    (∀ r1 r2, (raceRun raceInit sched).w1 = .fin r1 →
      (raceRun raceInit sched).w2 = .fin r2 →
      committedCount (raceRun raceInit sched) = 1) := by
  obtain ⟨h1, h2, h3, h4⟩ := raceInv_run sched raceInit raceInv_init
  refine ⟨h2, h1, ?_⟩
  intro r1 r2 hw1 hw2
  have hle : committedCount (raceRun raceInit sched) ≤ 1 := h1 ▸ h2
  have hge : 1 ≤ committedCount (raceRun raceInit sched) := by
    cases r1 with
    | committed =>
      simp [committedCount, hw1]
    | alreadyVoted =>
      have hrow : 1 ≤ (raceRun raceInit sched).rows := h3 (by rw [hw1]; trivial)
      omega
    | integrityFault =>
      have hrow : 1 ≤ (raceRun raceInit sched).rows := h3 (by rw [hw1]; trivial)
      omega
  omega

/-- Witness for C1: on the both-check-first schedule both workers finish and
exactly one commit is recorded. -/
theorem C1_unique_commit_witness :
    committedCount (raceRun raceInit [true, false, true, false]) = 1 :=
  (C1_unique_commit [true, false, true, false]).2.2 .committed .integrityFault
    (by decide) (by decide)

/-- C2: after a 201 vote commit on the body's poll, the cached results entry
for that poll is gone (whatever the clock), and an immediately following
results read serves a payload recomputed from the post-commit store, whose
total counts the new vote. -/
theorem C2_invalidate_before_ack (st : SysState) (now u bp bo uid now2 : Nat)
    (h201 : (VoteCreateView_post st now u bp bo uid).2.status = 201) :
    cache_get (VoteCreateView_post st now u bp bo uid).1.cache
        (results_cache_key bp) now2 = none ∧
    ∃ poll, find_poll (VoteCreateView_post st now u bp bo uid).1.store bp = some poll ∧
      (PollResultView_get (VoteCreateView_post st now u bp bo uid).1 now2 bp).2.1 =
        ⟨200, .results
          (aggregate_results (VoteCreateView_post st now u bp bo uid).1.store poll)⟩ ∧
      total_votes (VoteCreateView_post st now u bp bo uid).1.store poll =
        total_votes st.store poll + 1 := by
  obtain ⟨poll, opt, hv, heq⟩ := post_201_spec st now u bp bo uid h201
  obtain ⟨hp, ho, hact, hexp, hvex, hmem, hid, hoid⟩ := validate_ok_facts hv
  rw [heq]
  have hfp : find_poll { st.store with votes := st.store.votes ++ [⟨bp, bo, uid, now⟩] }
      bp = some poll := by
    simpa [find_poll] using hp
  have hcg : ∀ t, cache_get (cache_delete st.cache (results_cache_key bp))
      (results_cache_key bp) t = none :=
    fun t => cache_get_delete st.cache (results_cache_key bp) t
  refine ⟨hcg now2, poll, hfp, ?_, ?_⟩
  · simp [PollResultView_get, hcg now2, hfp]
  · simp [total_votes, List.filter_append, hid]

/-- Witness for C2: the demo vote on poll 1 leaves no cached entry behind. -/
theorem C2_invalidate_before_ack_witness :
    cache_get (VoteCreateView_post demoState 0 7 1 1 5).1.cache
      (results_cache_key 1) 30 = none :=
  (C2_invalidate_before_ack demoState 0 7 1 1 5 30 (by decide)).1

/-- C3, counterexample: a duplicate vote attempt is answered with HTTP 400
(the DRF ValidationError), not with the claimed 409, while the state is left
unchanged. -/
theorem C3_counterexample :
    (VoteCreateView_post demoVotedState 0 1 1 2 5).2.status = 400 ∧
    ¬(VoteCreateView_post demoVotedState 0 1 1 2 5).2.status = 409 ∧
    (VoteCreateView_post demoVotedState 0 1 1 2 5).1 = demoVotedState := by decide

/-- C3, amended: a vote attempt by a user who already has a committed vote on
the same (votable) poll fails with the already-voted `ValidationError`
surfaced as HTTP 400, creates no second vote row, and leaves every per-poll
and per-option count unchanged; it is a handled validation answer, not a
system fault. -/
theorem C3_duplicate_vote_rejected (st : SysState) (now u bp bo uid : Nat) (poll : Poll)
    (opt : PollOption) (hp : find_poll st.store bp = some poll)
    (ho : find_option st.store bo = some opt) (A : poll.isActive = true)
    (E : is_expired poll now = false) (V : vote_exists st.store uid bp = true) :
    VoteCreateView_post st now u bp bo uid =
      (st, ⟨400, .validationErrors ["You have already voted in this poll."]⟩) ∧
    total_votes (VoteCreateView_post st now u bp bo uid).1.store poll =
      total_votes st.store poll ∧
    ∀ o : PollOption, vote_count (VoteCreateView_post st now u bp bo uid).1.store o =
      vote_count st.store o := by
  have hmain := post_of_validate_error u (validate_already_voted hp ho A E V)
  exact ⟨hmain, by rw [hmain], fun o => by rw [hmain]⟩

/-- Witness for C3: the demo duplicate attempt by user 5 on poll 1. -/
theorem C3_duplicate_vote_rejected_witness :
    VoteCreateView_post demoVotedState 0 1 1 2 5 =
      (demoVotedState, ⟨400, .validationErrors ["You have already voted in this poll."]⟩) :=
  (C3_duplicate_vote_rejected demoVotedState 0 1 1 2 5 demoPoll ⟨2, 1, "Blue"⟩
    (by decide) (by decide) (by decide) (by decide) (by decide)).1

/-- C4: in every well-formed store the per-poll vote count computed from the
vote table equals the sum of the per-option counts of that poll's options,
and the vote handler preserves store well-formedness, so the equality holds
at all times along the write path. -/
theorem C4_total_eq_option_sum (s : Store) (hwf : wellFormed s) (p : Poll)
    (st : SysState) (hwf2 : wellFormed st.store) (now u bp bo uid : Nat) :
    total_votes s p = ((poll_options s p).map (fun o => vote_count s o)).sum ∧
    wellFormed (VoteCreateView_post st now u bp bo uid).1.store :=
  ⟨store_total_eq_sum s hwf p, wellFormed_post st now u bp bo uid hwf2⟩

/-- Witness for C4: the demo store with one committed vote. -/
theorem C4_total_eq_option_sum_witness :
    total_votes demoVotedStore demoPoll =
      ((poll_options demoVotedStore demoPoll).map
        (fun o => vote_count demoVotedStore o)).sum :=
  (C4_total_eq_option_sum demoVotedStore (by constructor <;> decide) demoPoll demoState
    (by constructor <;> decide) 0 1 1 1 5).1

/-- C5: a vote attempt on an inactive poll, on an expired poll, or naming an
option of another poll is rejected with a `ValidationError` (HTTP 400,
message naming the cause) and the whole system state — in particular the
vote store — is unchanged. -/
theorem C5_invalid_vote_attempts (st : SysState) (now u bp bo uid : Nat) (poll : Poll)
    (opt : PollOption) (hp : find_poll st.store bp = some poll)
    (ho : find_option st.store bo = some opt)
    (hbad : poll.isActive = false ∨ is_expired poll now = true ∨ opt.pollId ≠ poll.id) :
    ((VoteCreateView_post st now u bp bo uid).1 = st ∧
      (VoteCreateView_post st now u bp bo uid).2.status = 400 ∧
      ∃ msg, (VoteCreateView_post st now u bp bo uid).2.body = .validationErrors [msg]) ∧
    (poll.isActive = false → VoteCreateView_post st now u bp bo uid =
      (st, ⟨400, .validationErrors ["This poll is no longer active."]⟩)) ∧
    (poll.isActive = true → is_expired poll now = true →
      VoteCreateView_post st now u bp bo uid =
        (st, ⟨400, .validationErrors ["This poll has expired."]⟩)) ∧
    (poll.isActive = true → is_expired poll now = false →
      vote_exists st.store uid bp = false → opt.pollId ≠ poll.id →
      VoteCreateView_post st now u bp bo uid =
        (st, ⟨400, .validationErrors ["Selected option does not belong to this poll."]⟩)) := by
  refine ⟨?_, fun A => post_of_validate_error u (validate_inactive now uid hp ho A),
    fun A E => post_of_validate_error u (validate_expired uid hp ho A E),
    fun A E V M => post_of_validate_error u (validate_not_member hp ho A E V M)⟩
  by_cases A : poll.isActive = true
  · by_cases E : is_expired poll now = true
    · have h := post_of_validate_error u (validate_expired uid hp ho A E)
      rw [h]
      exact ⟨rfl, rfl, _, rfl⟩
    · have E' : is_expired poll now = false := by simpa using E
      by_cases V : vote_exists st.store uid bp = true
      · have h := post_of_validate_error u (validate_already_voted hp ho A E' V)
        rw [h]
        exact ⟨rfl, rfl, _, rfl⟩
      · have V' : vote_exists st.store uid bp = false := by simpa using V
        have M : opt.pollId ≠ poll.id := by
          rcases hbad with hA | hE | hM
          · simp [A] at hA
          · simp [hE] at E'
          · exact hM
        have h := post_of_validate_error u (validate_not_member hp ho A E' V' M)
        rw [h]
        exact ⟨rfl, rfl, _, rfl⟩
  · have A' : poll.isActive = false := by simpa using A
    have h := post_of_validate_error u (validate_inactive now uid hp ho A')
    rw [h]
    exact ⟨rfl, rfl, _, rfl⟩

/-- Witness for C5: voting on the deactivated demo poll 2 is rejected with
the inactive message and the state is unchanged. -/
theorem C5_invalid_vote_attempts_witness :
    VoteCreateView_post demoState 0 2 2 5 5 =
      (demoState, ⟨400, .validationErrors ["This poll is no longer active."]⟩) :=
  (C5_invalid_vote_attempts demoState 0 2 2 5 5 demoInactivePoll ⟨5, 2, "Yes"⟩
    (by decide) (by decide) (Or.inl (by decide))).2.1 (by decide)

/-- C6: on a cache miss the results operation answers 404 with
`{"error": "Poll not found."}` when the poll id resolves to no poll, and
otherwise answers 200 with the poll's title, its live total vote count and
one (text, votes) entry per option, recomputed from the store, with the
options listed in ascending id (creation) order. -/
theorem C6_results_read (st : SysState) (now pid : Nat)
    (hmiss : cache_get st.cache (results_cache_key pid) now = none) :
    (find_poll st.store pid = none →
      PollResultView_get st now pid =
        (st, ⟨404, .errorObj "Poll not found." none⟩, true)) ∧
    (∀ poll, find_poll st.store pid = some poll →
      (PollResultView_get st now pid).2.1 =
        ⟨200, .results (aggregate_results st.store poll)⟩ ∧
      (aggregate_results st.store poll).poll = poll.title ∧
      (aggregate_results st.store poll).total_votes = total_votes st.store poll ∧
      (aggregate_results st.store poll).results =
        (poll_options st.store poll).map (fun o => (o.text, vote_count st.store o)) ∧
      (poll_options st.store poll).Pairwise (fun a b => a.id ≤ b.id) ∧
      (poll_options st.store poll).Perm
        (st.store.options.filter (fun o => o.pollId == poll.id))) := by
  constructor
  · intro hnone
    simp [PollResultView_get, hmiss, hnone]
  · intro poll hsome
    exact ⟨by simp [PollResultView_get, hmiss, hsome], rfl, rfl, rfl,
      pairwise_orderByID _, orderByID_perm _⟩

/-- Witness for C6: a read of the unknown poll id 99 on the demo state is a
404 with the documented body. -/
theorem C6_results_read_witness :
    PollResultView_get demoState 0 99 =
      (demoState, ⟨404, .errorObj "Poll not found." none⟩, true) :=
  (C6_results_read demoState 0 99 (by decide)).1 (by decide)

/-- C7: when the cache holds an entry for the poll whose expiry is still in
the future and no invalidation has removed it, the results read returns
exactly the cached snapshot, changes nothing, and performs no query against
the poll store. -/
theorem C7_cache_hit_no_store_query (st : SysState) (now pid : Nat)
    (kv : String × CacheEntry)
    (hfind : st.cache.find? (fun e => e.fst == results_cache_key pid) = some kv)
    (httl : now < kv.snd.expireAt) :
    PollResultView_get st now pid = (st, ⟨200, .results kv.snd.value⟩, false) := by
  simp [PollResultView_get, cache_get, hfind, httl]

/-- Witness for C7: a read of poll 1 at tick 30 against the cached demo state
serves the stored snapshot without touching the store. -/
theorem C7_cache_hit_no_store_query_witness :
    PollResultView_get demoCachedState 30 1 =
      (demoCachedState, ⟨200, .results demoSnapshot⟩, false) :=
  C7_cache_hit_no_store_query demoCachedState 30 1
    (results_cache_key 1, ⟨demoSnapshot, 60⟩) (by decide) (by decide)

/-- C8: poll creation rejects fewer than two option texts, duplicated texts,
and a supplied expiry not strictly in the future, each with a
`ValidationError` and without writing anything; otherwise it creates the
poll plus exactly one option row per supplied text, in order, all owned by
the new poll, and writes no vote row. -/
theorem C8_createPoll_validation (s : Store) (title : String)
    (description : Option String) (expiry : Option Nat) (ownerId now : Nat)
    (texts : List String) :
    ((texts.length < 2 ∨ ¬texts.Nodup ∨ (∃ e, expiry = some e ∧ e ≤ now)) →
      (createPoll s title description expiry ownerId now texts).1 = s ∧
      ∃ msg, (createPoll s title description expiry ownerId now texts).2 =
        .error (.validation msg)) ∧
    (2 ≤ texts.length → texts.Nodup → (∀ e, expiry = some e → now < e) →
      ∃ poll, (createPoll s title description expiry ownerId now texts).2 = .ok poll ∧
        (createPoll s title description expiry ownerId now texts).1.polls =
          s.polls ++ [poll] ∧
        (createPoll s title description expiry ownerId now texts).1.options =
          s.options ++ createOptionRows poll.id s.nextOptionId texts ∧
        (createOptionRows poll.id s.nextOptionId texts).map PollOption.text = texts ∧
        (∀ o ∈ createOptionRows poll.id s.nextOptionId texts, o.pollId = poll.id) ∧
        (createPoll s title description expiry ownerId now texts).1.votes = s.votes) := by
  constructor
  · intro hbad
    cases hve : validate_expires_at expiry now with
    | error e =>
      have hmsg : e = ApiError.validation "Expiry date must be in the future." := by
        rcases expiry with _ | e'
        · simp [validate_expires_at] at hve
        · by_cases he : e' ≤ now
          · rw [validate_expires_at_le he] at hve
            exact (Except.error.inj hve).symm
          · simp [validate_expires_at, he] at hve
      subst hmsg
      exact ⟨by simp [createPoll, hve], "Expiry date must be in the future.",
        by simp [createPoll, hve]⟩
    | ok val =>
      have hopts : texts.length < 2 ∨ ¬texts.Nodup := by
        rcases hbad with h | h | ⟨e, he1, he2⟩
        · exact Or.inl h
        · exact Or.inr h
        · subst he1
          rw [validate_expires_at_le he2] at hve
          cases hve
      obtain ⟨msg, hmsg⟩ := validate_options_error texts hopts
      exact ⟨by simp [createPoll, hve, hmsg], msg, by simp [createPoll, hve, hmsg]⟩
  · intro h2 hnd hfut
    have hve : validate_expires_at expiry now = .ok expiry := by
      rcases expiry with _ | e
      · rfl
      · exact validate_expires_at_gt (hfut e rfl)
    have hvo := validate_options_ok texts h2 hnd
    refine ⟨⟨s.nextPollId, title, description, now, expiry, ownerId, true⟩,
      ?_, ?_, ?_, createOptionRows_texts _ _ _, createOptionRows_pollId _ _ _, ?_⟩ <;>
      simp [createPoll, hve, hvo, PollCreateSerializer_create]

/-- Witness for C8: the demo store rejects a duplicate option list untouched
and creates a two-option poll from a valid request. -/
theorem C8_createPoll_validation_witness :
    ((createPoll demoStore "T" none none 9 0 ["A", "A"]).1 = demoStore ∧
      ∃ msg, (createPoll demoStore "T" none none 9 0 ["A", "A"]).2 =
        .error (.validation msg)) ∧
    ∃ poll, (createPoll demoStore "T" none none 9 0 ["A", "B"]).2 = .ok poll ∧
      (createPoll demoStore "T" none none 9 0 ["A", "B"]).1.polls =
        demoStore.polls ++ [poll] ∧
      (createPoll demoStore "T" none none 9 0 ["A", "B"]).1.options =
        demoStore.options ++ createOptionRows poll.id demoStore.nextOptionId ["A", "B"] ∧
      (createOptionRows poll.id demoStore.nextOptionId ["A", "B"]).map
        PollOption.text = ["A", "B"] ∧
      (∀ o ∈ createOptionRows poll.id demoStore.nextOptionId ["A", "B"],
        o.pollId = poll.id) ∧
      (createPoll demoStore "T" none none 9 0 ["A", "B"]).1.votes = demoStore.votes :=
  ⟨(C8_createPoll_validation demoStore "T" none none 9 0 ["A", "A"]).1
      (Or.inr (Or.inl (by decide))),
    (C8_createPoll_validation demoStore "T" none none 9 0 ["A", "B"]).2
      (by decide) (by decide) (fun e he => by cases he)⟩

/-- C9: with the vote budget of 20 per hour per user and the results budget
of 100 per hour per origin, the budget-th request of a window is dispatched
to the operation handler while the next one receives the one shared
`rate_limited_error` answer: HTTP 429 with the fixed body whose error field
is "Rate limit exceeded", identical whichever operation was limited. -/
theorem C9_rate_limit_boundary (h : HttpResponse) :
    guarded_dispatch vote_rate_budget 20 h = h ∧
    guarded_dispatch vote_rate_budget 21 h = rate_limited_error ∧
    guarded_dispatch results_rate_budget 100 h = h ∧
    guarded_dispatch results_rate_budget 101 h = rate_limited_error ∧
    rate_limited_error.status = 429 ∧
    rate_limited_error.body = .errorObj "Rate limit exceeded"
      (some "Too many requests. Please try again later.") := by
  refine ⟨?_, ?_, ?_, ?_, rfl, rfl⟩ <;> rfl

/-- C10: the poll and option a committed vote references, and the cache key
invalidated on success, are determined solely by the body's poll and option
ids: the handler's answer is identical for any two URL poll ids, and a 201
commits a row on the body's poll while deleting that poll's results key. -/
theorem C10_body_determines_vote (st : SysState) (now u1 u2 bp bo uid : Nat) :
    VoteCreateView_post st now u1 bp bo uid = VoteCreateView_post st now u2 bp bo uid ∧
    ((VoteCreateView_post st now u1 bp bo uid).2.status = 201 →
      (VoteCreateView_post st now u1 bp bo uid).1.store.votes =
        st.store.votes ++ [⟨bp, bo, uid, now⟩] ∧
      (VoteCreateView_post st now u1 bp bo uid).1.cache =
        cache_delete st.cache (results_cache_key bp)) := by
  refine ⟨rfl, fun h201 => ?_⟩
  obtain ⟨poll, opt, hv, heq⟩ := post_201_spec st now u1 bp bo uid h201
  rw [heq]
  exact ⟨rfl, rfl⟩

/-- Witness for C10: a request posted to poll 7's vote URL whose body names
poll 1 commits the vote on poll 1 and deletes poll 1's results key. -/
theorem C10_body_determines_vote_witness :
    (VoteCreateView_post demoState 0 7 1 1 5).1.store.votes =
      demoState.store.votes ++ [⟨1, 1, 5, 0⟩] ∧
    (VoteCreateView_post demoState 0 7 1 1 5).1.cache =
      cache_delete demoState.cache (results_cache_key 1) :=
  (C10_body_determines_vote demoState 0 7 9 1 1 5).2 (by decide)

end PollSystem
